import Mathlib

/-!
Verification of the restore-orchestration core of elk-util
(src/elk_util/elk-cursor.py) against its specification.

The Python source is shallowly embedded: dictionaries become association
lists (Python dicts preserve insertion order, and iteration in the source
follows that order), machine integers become Nat, strings become String or
List Char, and every HTTP interaction becomes an explicit oracle argument
holding the response the cluster would have produced.  Python list.sort is
a stable sort, so it is embedded as insertion sort, which is also stable;
with the same comparator the two produce identical output.  The numeric
part of size parsing (Python float applied to an unsigned decimal literal,
then int truncation) is embedded as exact mantissa/scale arithmetic over
Nat, which agrees with the source on every decimal literal whose scaled
value is exactly representable, in particular on all values the claims
mention.  The bounded while loop of restore_index is embedded with explicit
fuel equal to the remaining attempts, so the loop condition attempt less
than max_attempts is preserved exactly.
-/

namespace ElkUtil

/-! ## Selection engine (elk-cursor.py lines 27 to 43 and 147 to 170) -/

/-- Byte ceiling for one run, from elk-cursor.py line 27. -/
def MAX_RESTORE_BYTES : Nat := 500 * 10 ^ 9

/-- The system-index name markers, from elk-cursor.py lines 30 to 39. -/
def SYSTEM_INDICES : List String :=
  [".kibana", ".kibana_", ".security", ".apm", ".async-search",
   ".ds-", ".internal.", ".slo-"]

/-- Embedding of Python str.startswith: the leading characters equal p. -/
def startswith (s p : String) : Bool :=
  s.data.take p.data.length == p.data

/-- Embedding of is_system_index (elk-cursor.py lines 41 to 43). -/
def is_system_index (index_name : String) : Bool :=
  SYSTEM_INDICES.any (fun p => startswith index_name p)

/-- Stats the passive cluster reports for one local index, as stored by
get_local_indices (elk-cursor.py lines 136 to 139). -/
structure LocalStat where
  docs : Nat
  size : Nat
deriving DecidableEq

/-- Snapshot-side view: index name to stored size in bytes. -/
abbrev SnapMap := List (String × Nat)

/-- Passive-cluster-side view: index name to its stats. -/
abbrev LocalMap := List (String × LocalStat)

/-- The candidate test of elk-cursor.py line 157: local absent, or the
snapshot size strictly above the local size. -/
def needs_restore (local_indices : LocalMap) (p : String × Nat) : Bool :=
  match local_indices.lookup p.1 with
  | none => true
  | some l => decide (p.2 > l.size)

/-- The to_restore list of elk-cursor.py lines 149 to 159: non-system
indices of the snapshot that need a restore, in snapshot-map order. -/
def restore_candidates (snapshot_indices : SnapMap) (local_indices : LocalMap) : SnapMap :=
  snapshot_indices.filter (fun p => !is_system_index p.1 && needs_restore local_indices p)

/-- The comparator of elk-cursor.py line 162: a before b when the size of a
is at least the size of b (Python sorts ascending with key minus size). -/
def size_desc (a b : String × Nat) : Prop := b.2 ≤ a.2

instance : DecidableRel size_desc := fun a b => Nat.decLe b.2 a.2

instance : IsTotal (String × Nat) size_desc := ⟨fun a b => Nat.le_total b.2 a.2⟩

instance : IsTrans (String × Nat) size_desc := ⟨fun _ _ _ h1 h2 => Nat.le_trans h2 h1⟩

/-- The candidates after the stable descending-by-size sort of
elk-cursor.py line 162. -/
def sorted_candidates (snapshot_indices : SnapMap) (local_indices : LocalMap) : SnapMap :=
  List.insertionSort size_desc (restore_candidates snapshot_indices local_indices)

/-- The accumulation loop of elk-cursor.py lines 163 to 169: append while
the running total stays within MAX_RESTORE_BYTES, break at the first
candidate that would overflow it. -/
def greedy_pack : SnapMap → Nat → List String
  | [], _ => []
  | (idx, size) :: rest, total =>
    if total + size > MAX_RESTORE_BYTES then []
    else idx :: greedy_pack rest (total + size)

/-- Embedding of pick_indices_to_restore (elk-cursor.py lines 147 to 170). -/
def pick_indices_to_restore (snapshot_indices : SnapMap) (local_indices : LocalMap) :
    List String :=
  greedy_pack (sorted_candidates snapshot_indices local_indices) 0

/-- Size a name has in the snapshot map (0 when absent). -/
def snap_size (snapshot_indices : SnapMap) (idx : String) : Nat :=
  (snapshot_indices.lookup idx).getD 0

/-! ## Size parser (elk-cursor.py lines 109 to 127) -/

/-- Value of a digit string read left to right in base 10. -/
def digits_val (l : List Char) : Nat :=
  l.foldl (fun acc c => acc * 10 + (c.toNat - 48)) 0

/-- Embedding of Python float restricted to the unsigned decimal literals
the cat-indices endpoint emits: digits with at most one dot and at least
one digit overall give mantissa and scale (value mantissa over 10 to the
scale), anything else raises, modelled as none. -/
def parse_decimal (s : List Char) : Option (Nat × Nat) :=
  let intPart := s.takeWhile (fun c => c != '.')
  let rest := s.dropWhile (fun c => c != '.')
  match rest with
  | [] =>
    if !intPart.isEmpty && intPart.all Char.isDigit then some (digits_val intPart, 0)
    else none
  | _ :: frac =>
    if (!intPart.isEmpty || !frac.isEmpty) && intPart.all Char.isDigit
        && frac.all Char.isDigit then
      some (digits_val intPart * 10 ^ frac.length + digits_val frac, frac.length)
    else none

/-- Embedding of Python int applied to a string: digits only, else raises,
modelled as none. -/
def py_int (s : List Char) : Option Nat :=
  if !s.isEmpty && s.all Char.isDigit then some (digits_val s) else none

/-- Embedding of Python str.endswith on character lists. -/
def endswith (l suf : List Char) : Bool :=
  decide (l.reverse.take suf.length = suf.reverse)

/-- Embedding of the size conversion in get_local_indices (elk-cursor.py
lines 113 to 127).  The source checks endswith b and then slices off the
last TWO characters before parsing the number, applies the multiplier of
the first matching two-letter suffix, and truncates with int; any parse
failure is caught and yields 0.  Truncation of the non-negative exact value
is Nat division by the scale power of ten. -/
def parse_size (size : List Char) : Nat :=
  if size.isEmpty then 0
  else if endswith size ['b'] then
    match parse_decimal (size.dropLast.dropLast) with
    | none => 0
    | some (m, scale) =>
      let mult : Nat :=
        if endswith size ['k', 'b'] then 1024
        else if endswith size ['m', 'b'] then 1024 ^ 2
        else if endswith size ['g', 'b'] then 1024 ^ 3
        else if endswith size ['t', 'b'] then 1024 ^ 4
        else 1
      m * mult / 10 ^ scale
  else
    match py_int size with
    | none => 0
    | some n => n

/-! ## Restore driver (elk-cursor.py lines 183 to 280) -/

/-- One health-poll response as restore_index sees it: a request exception,
a non-ok HTTP response, or a parsed status string. -/
inductive HealthResp where
  | exn : HealthResp
  | notOk : HealthResp
  | ok (status : String) : HealthResp
deriving DecidableEq

/-- Embedding of verify_restore_success (elk-cursor.py lines 193 to 208):
the live doc count, none when get_index_doc_count failed, must equal the
expected count; a failed fetch returns false like a mismatch. -/
def verify_restore_success (actual_docs : Option Nat) (expected_docs : Nat) : Bool :=
  match actual_docs with
  | none => false
  | some actual => actual == expected_docs

/-- The attempt ceiling of elk-cursor.py line 242. -/
def max_attempts : Nat := 30

/-- Whether one polling iteration of restore_index (elk-cursor.py lines
245 to 265) returns success: response ok, status green, and the doc count
verified.  Every other outcome (exception, non-ok, non-green, green with
unverified docs) falls through to the attempt increment. -/
def poll_success (health : Nat → HealthResp) (doc : Nat → Option Nat)
    (expected_docs attempt : Nat) : Bool :=
  match health attempt with
  | HealthResp.ok status => status == "green" && verify_restore_success (doc attempt) expected_docs
  | _ => false

/-- The while loop of elk-cursor.py lines 244 to 273 with explicit fuel:
each iteration makes one poll and increments attempt once on every
non-success outcome; on success it returns true with the number of polls
consumed; when fuel runs out it returns false with the attempt counter. -/
def health_poll_aux (health : Nat → HealthResp) (doc : Nat → Option Nat)
    (expected_docs : Nat) : Nat → Nat → Bool × Nat
  | 0, attempt => (false, attempt)
  | fuel + 1, attempt =>
    if poll_success health doc expected_docs attempt then (true, attempt + 1)
    else health_poll_aux health doc expected_docs fuel (attempt + 1)

/-- The polling loop from a given attempt counter: fuel is the number of
remaining iterations allowed by the condition attempt below max_attempts. -/
def health_poll_loop (health : Nat → HealthResp) (doc : Nat → Option Nat)
    (expected_docs : Nat) (attempt : Nat) : Bool × Nat :=
  health_poll_aux health doc expected_docs (max_attempts - attempt) attempt

/-- Embedding of restore_index (elk-cursor.py lines 210 to 280) after the
request body is built: the snapshot-visibility GET and the restore POST
gate the polling loop; the pair holds the reported result and the number
of polls performed. -/
def restore_index (snapshot_visible restore_accepted : Bool)
    (health : Nat → HealthResp) (doc : Nat → Option Nat) (expected_docs : Nat) : Bool × Nat :=
  if !snapshot_visible then (false, 0)
  else if !restore_accepted then (false, 0)
  else health_poll_loop health doc expected_docs 0

/-- The simulated health sequence of the driver test: yellow, yellow, then
green from the third poll on. -/
def health_seq_c6 : Nat → HealthResp := fun n =>
  if n < 2 then HealthResp.ok "yellow" else HealthResp.ok "green"

/-- The simulated doc counts for that sequence: mismatching on the third
poll, matching afterwards. -/
def doc_seq_c6 : Nat → Option Nat := fun n => if n == 2 then some 41 else some 42

/-- A health sequence that stays yellow forever. -/
def yellow_seq : Nat → HealthResp := fun _ => HealthResp.ok "yellow"

/-- A health sequence that always raises a request exception. -/
def exn_seq : Nat → HealthResp := fun _ => HealthResp.exn

/-- A health sequence that is green from the first poll. -/
def green_seq : Nat → HealthResp := fun _ => HealthResp.ok "green"

/-- A doc-count oracle that always returns 0 documents. -/
def doc_zero : Nat → Option Nat := fun _ => some 0

/-- A doc-count oracle whose fetch always fails. -/
def doc_none : Nat → Option Nat := fun _ => none

/-! ## Run coordinator (elk-cursor.py lines 316 to 369) -/

/-- All cluster responses one run can observe, gathered as oracles: the
repository check, the snapshot catalog (none models a request exception),
the snapshot status map (none models an exception, which the source turns
into an empty dict), the local cat-indices result (same convention), and
the per-index responses of the restore loop. -/
structure ClusterEnv where
  repo_ok : Bool
  snapshots_resp : Option (List (String × Nat))
  snap_indices_resp : Option SnapMap
  local_resp : Option LocalMap
  active_doc_count : String → Option Nat
  close_ok : String → Bool
  snapshot_visible : Bool
  restore_accepted : String → Bool
  health : String → Nat → HealthResp
  passive_doc_count : String → Nat → Option Nat
  open_ok : String → Bool
  green_after_open : String → Bool

/-- Embedding of get_latest_snapshot (elk-cursor.py lines 64 to 78): none
on a request exception or an empty catalog, else the id of the first
snapshot with maximal end_epoch, as Python max with a key returns. -/
def get_latest_snapshot (env : ClusterEnv) : Option String :=
  match env.snapshots_resp with
  | none => none
  | some [] => none
  | some (s :: rest) =>
    some (rest.foldl (fun best c => if c.2 > best.2 then c else best) s).1

/-- Embedding of get_snapshot_indices (elk-cursor.py lines 91 to 100): an
exception is caught and an empty dict returned. -/
def get_snapshot_indices (env : ClusterEnv) : SnapMap :=
  match env.snap_indices_resp with
  | none => []
  | some l => l

/-- Embedding of get_local_indices (elk-cursor.py lines 102 to 145) at the
granularity main observes: the except branch at lines 143 to 145 returns
an empty dict, so the function never returns None. -/
def get_local_indices (env : ClusterEnv) : Option LocalMap :=
  match env.local_resp with
  | none => some []
  | some l => some l

/-- The local map main actually works with: empty when the fetch failed. -/
def effective_local (env : ClusterEnv) : LocalMap :=
  match env.local_resp with
  | none => []
  | some l => l

/-- The state-changing HTTP calls the per-index loop of main can issue. -/
inductive Action where
  | closeReq (index : String) : Action
  | restoreReq (index : String) : Action
  | openReq (index : String) : Action
deriving DecidableEq

/-- Outcome of one index in the loop of elk-cursor.py lines 349 to 367. -/
inductive IndexOutcome where
  | skippedNoDocCount : IndexOutcome
  | closeFailed : IndexOutcome
  | restoreFailed : IndexOutcome
  | openFailed : IndexOutcome
  | restoredNotGreen : IndexOutcome
  | restored : IndexOutcome
deriving DecidableEq

/-- Embedding of one iteration of the per-index loop in main
(elk-cursor.py lines 349 to 367): fetch the expected doc count (skip on
failure), close when the index exists locally (a close failure ends this
index only), then restore_index, then open and the green wait.  The first
component records the state-changing calls issued for this index. -/
def process_index (env : ClusterEnv) (local_indices : LocalMap) (idx : String) :
    List Action × IndexOutcome :=
  match env.active_doc_count idx with
  | none => ([], IndexOutcome.skippedNoDocCount)
  | some expected =>
    let closeActs : List Action :=
      if (local_indices.lookup idx).isSome then [Action.closeReq idx] else []
    if (local_indices.lookup idx).isSome && !env.close_ok idx then
      (closeActs, IndexOutcome.closeFailed)
    else if !env.snapshot_visible then
      (closeActs, IndexOutcome.restoreFailed)
    else if !env.restore_accepted idx then
      (closeActs ++ [Action.restoreReq idx], IndexOutcome.restoreFailed)
    else if (health_poll_loop (env.health idx) (env.passive_doc_count idx) expected 0).1 then
      if env.open_ok idx then
        (closeActs ++ [Action.restoreReq idx, Action.openReq idx],
          if env.green_after_open idx then IndexOutcome.restored
          else IndexOutcome.restoredNotGreen)
      else
        (closeActs ++ [Action.restoreReq idx, Action.openReq idx], IndexOutcome.openFailed)
    else
      (closeActs ++ [Action.restoreReq idx], IndexOutcome.restoreFailed)

/-- The overall result of one run of main. -/
inductive RunResult where
  | abortedRepoUnreachable : RunResult
  | abortedNoSnapshot : RunResult
  | abortedNoSnapshotIndices : RunResult
  | abortedNoLocalIndices : RunResult
  | nothingToRestore : RunResult
  | completed (results : List (String × (List Action × IndexOutcome))) : RunResult
deriving DecidableEq

/-- The batch main computes for a run. -/
def run_batch (env : ClusterEnv) : List String :=
  pick_indices_to_restore (get_snapshot_indices env) (effective_local env)

/-- Embedding of main (elk-cursor.py lines 316 to 369): the prerequisite
checks in source order, including the check at line 338 that compares the
result of get_local_indices against None, then the selection and the
sequential per-index loop with no early exit. -/
def main (env : ClusterEnv) : RunResult :=
  if !env.repo_ok then RunResult.abortedRepoUnreachable
  else match get_latest_snapshot env with
  | none => RunResult.abortedNoSnapshot
  | some _ =>
    if (get_snapshot_indices env).isEmpty then RunResult.abortedNoSnapshotIndices
    else match get_local_indices env with
    | none => RunResult.abortedNoLocalIndices
    | some local_indices =>
      let batch := pick_indices_to_restore (get_snapshot_indices env) local_indices
      if batch.isEmpty then RunResult.nothingToRestore
      else RunResult.completed
        (batch.map (fun idx => (idx, process_index env local_indices idx)))

/-- An environment where every prerequisite succeeds except the local
index fetch, which raises; the source then works with an empty dict. -/
def env_c5 : ClusterEnv where
  repo_ok := true
  snapshots_resp := some [("snap-1", 1000)]
  snap_indices_resp := some [("logs-1", 10)]
  local_resp := none
  active_doc_count := fun _ => some 5
  close_ok := fun _ => true
  snapshot_visible := true
  restore_accepted := fun _ => true
  health := fun _ _ => HealthResp.ok "green"
  passive_doc_count := fun _ _ => some 5
  open_ok := fun _ => true
  green_after_open := fun _ => true

/-- An environment where the one selected index exists locally and its
close call fails. -/
def env_c8 : ClusterEnv where
  repo_ok := true
  snapshots_resp := some [("snap-1", 1000)]
  snap_indices_resp := some [("logs-1", 10)]
  local_resp := some [("logs-1", ⟨5, 3⟩)]
  active_doc_count := fun _ => some 7
  close_ok := fun _ => false
  snapshot_visible := true
  restore_accepted := fun _ => true
  health := fun _ _ => HealthResp.ok "green"
  passive_doc_count := fun _ _ => some 7
  open_ok := fun _ => true
  green_after_open := fun _ => true

/-- A small snapshot map with one user index and one system index, used to
instantiate universally quantified theorems. -/
def snap_example : SnapMap := [("logs-1", 100), (".kibana_7", 50)]

/-- A local map where the user index is present but smaller than in the
snapshot. -/
def local_example : LocalMap := [("logs-1", ⟨10, 40⟩)]

/-! ## Helper lemmas -/

/-- The greedy loop returns the names of a take of its input, the running
total of the packed sizes stays within the ceiling, and the cut happens
either at the end of the list or at the first element that would overflow. -/
theorem greedy_pack_spec (l : SnapMap) (total : Nat) (ht : total ≤ MAX_RESTORE_BYTES) :
    ∃ k, greedy_pack l total = (l.take k).map Prod.fst
      ∧ total + ((l.take k).map Prod.snd).sum ≤ MAX_RESTORE_BYTES
      ∧ (k = l.length ∨ total + ((l.take (k + 1)).map Prod.snd).sum > MAX_RESTORE_BYTES) := by
  induction l generalizing total with
  | nil => exact ⟨0, rfl, by simpa using ht, Or.inl rfl⟩
  | cons p rest ih =>
    obtain ⟨idx, size⟩ := p
    by_cases hb : total + size > MAX_RESTORE_BYTES
    · refine ⟨0, ?_, by simpa using ht, Or.inr ?_⟩
      · simp [greedy_pack, hb]
      · simpa using hb
    · push_neg at hb
      obtain ⟨k, hk1, hk2, hk3⟩ := ih (total + size) hb
      refine ⟨k + 1, ?_, ?_, ?_⟩
      · simp [greedy_pack, Nat.not_lt.mpr hb, hk1]
      · simpa [Nat.add_assoc] using hk2
      · rcases hk3 with h | h
        · exact Or.inl (by simp [h])
        · exact Or.inr (by simpa [Nat.add_assoc] using h)

/-- Association-list lookup of a member pair when the keys are distinct. -/
theorem lookup_eq_of_mem {α β : Type} [BEq α] [LawfulBEq α] {l : List (α × β)} {a : α} {b : β}
    (hnd : (l.map Prod.fst).Nodup) (hm : (a, b) ∈ l) : l.lookup a = some b := by
  induction l with
  | nil => simp at hm
  | cons p rest ih =>
    rcases List.mem_cons.mp hm with h | h
    · subst h
      simp [List.lookup]
    · have hne : a ≠ p.1 := by
        intro he
        have : p.1 ∈ rest.map Prod.fst := he ▸ List.mem_map.mpr ⟨(a, b), h, by simp [he]⟩
        exact (List.nodup_cons.mp (by simpa using hnd)).1 this
      have : (a == p.1) = false := beq_eq_false_iff_ne.mpr hne
      simp [List.lookup, this]
      exact ih (List.nodup_cons.mp (by simpa using hnd)).2 h

/-- Every sorted candidate is a snapshot entry that is neither a system
index nor already as large locally. -/
theorem mem_snap_of_mem_sorted {snap : SnapMap} {local_indices : LocalMap} {p : String × Nat}
    (hp : p ∈ sorted_candidates snap local_indices) :
    p ∈ snap ∧ is_system_index p.1 = false ∧ needs_restore local_indices p = true := by
  have h1 : p ∈ restore_candidates snap local_indices :=
    (List.perm_insertionSort size_desc _).mem_iff.mp hp
  have h2 := List.mem_filter.mp h1
  refine ⟨h2.1, ?_, ?_⟩
  · have := (Bool.and_eq_true _ _).mp h2.2 |>.1
    simpa using this
  · exact (Bool.and_eq_true _ _).mp h2.2 |>.2

/-- The endswith test against a two-character suffix only looks at the
last two characters. -/
theorem endswith_append_pair (ds : List Char) (a b c d : Char) :
    endswith (ds ++ [a, b]) [c, d] = (b == d && a == c) := by
  by_cases hbd : b = d <;> by_cases hac : a = c <;>
    simp [endswith, List.reverse_append, hbd, hac]

/-- The endswith test against a one-character suffix only looks at the
last character. -/
theorem endswith_append_one (ds : List Char) (a b c : Char) :
    endswith (ds ++ [a, b]) [c] = (b == c) := by
  by_cases hbc : b = c <;> simp [endswith, List.reverse_append, hbc]

/-- Dropping the last element twice from a list extended by two elements
recovers the list, mirroring the minus-two slice of the source. -/
theorem dropLast_two (ds : List Char) (a b : Char) :
    (ds ++ [a, b]).dropLast.dropLast = ds := by
  have h : ds ++ [a, b] = (ds ++ [a]) ++ [b] := by simp
  rw [h, List.dropLast_concat, List.dropLast_concat]

/-- A poll is a non-success exactly when it is not a green status with a
verified doc count. -/
theorem poll_success_false_iff (health : Nat → HealthResp) (doc : Nat → Option Nat)
    (expected n : Nat) :
    poll_success health doc expected n = false
      ↔ ¬(health n = HealthResp.ok "green" ∧ verify_restore_success (doc n) expected = true) := by
  cases hh : health n with
  | exn => simp [poll_success, hh]
  | notOk => simp [poll_success, hh]
  | ok status =>
    by_cases hs : status = "green"
    · subst hs
      simp [poll_success, hh]
    · simp [poll_success, hh, hs]

/-- When no poll in the fuel window succeeds, the loop consumes all its
fuel, one attempt per iteration, and reports failure. -/
theorem health_poll_aux_timeout (health : Nat → HealthResp) (doc : Nat → Option Nat)
    (expected : Nat) :
    ∀ fuel attempt,
      (∀ n, attempt ≤ n → n < attempt + fuel → poll_success health doc expected n = false) →
      health_poll_aux health doc expected fuel attempt = (false, attempt + fuel) := by
  intro fuel
  induction fuel with
  | zero => intro attempt _; simp [health_poll_aux]
  | succ f ih =>
    intro attempt h
    have hres : health_poll_aux health doc expected f (attempt + 1) = (false, attempt + 1 + f) :=
      ih (attempt + 1) (fun n h1 h2 => h n (by omega) (by omega))
    rw [health_poll_aux, if_neg (by simp [h attempt (by omega) (by omega)]), hres]
    congr 1
    omega

/-- A non-success poll consumes exactly one attempt: the loop continues as
the same loop started one attempt later. -/
theorem health_poll_loop_continue (health : Nat → HealthResp) (doc : Nat → Option Nat)
    (expected attempt : Nat) (ha : attempt < max_attempts)
    (h : poll_success health doc expected attempt = false) :
    health_poll_loop health doc expected attempt
      = health_poll_loop health doc expected (attempt + 1) := by
  have hfuel : max_attempts - attempt = (max_attempts - (attempt + 1)) + 1 := by omega
  rw [health_poll_loop, hfuel, health_poll_aux, if_neg (by simp [h])]
  rfl

/-- A successful poll ends the loop at once, reporting the polls consumed. -/
theorem health_poll_loop_success (health : Nat → HealthResp) (doc : Nat → Option Nat)
    (expected attempt : Nat) (ha : attempt < max_attempts)
    (h : poll_success health doc expected attempt = true) :
    health_poll_loop health doc expected attempt = (true, attempt + 1) := by
  have hfuel : max_attempts - attempt = (max_attempts - (attempt + 1)) + 1 := by omega
  rw [health_poll_loop, hfuel, health_poll_aux, if_pos h]

/-- The loop either succeeds within its fuel window or fails having
consumed exactly its fuel. -/
theorem health_poll_aux_bound (health : Nat → HealthResp) (doc : Nat → Option Nat)
    (expected : Nat) :
    ∀ fuel attempt,
      ((health_poll_aux health doc expected fuel attempt).1 = true
        ∧ attempt < (health_poll_aux health doc expected fuel attempt).2
        ∧ (health_poll_aux health doc expected fuel attempt).2 ≤ attempt + fuel)
      ∨ health_poll_aux health doc expected fuel attempt = (false, attempt + fuel) := by
  intro fuel
  induction fuel with
  | zero => intro attempt; right; simp [health_poll_aux]
  | succ f ih =>
    intro attempt
    by_cases hc : poll_success health doc expected attempt = true
    · rw [health_poll_aux, if_pos hc]
      exact Or.inl ⟨rfl, by omega, by omega⟩
    · rw [health_poll_aux, if_neg hc]
      rcases ih (attempt + 1) with ⟨h1, h2, h3⟩ | h
      · exact Or.inl ⟨h1, by omega, by omega⟩
      · right; rw [h]; congr 1; omega

/-- get_local_indices never returns none: the except branch of the source
returns an empty dict instead. -/
theorem get_local_indices_eq (env : ClusterEnv) :
    get_local_indices env = some (effective_local env) := by
  cases h : env.local_resp <;> simp [get_local_indices, effective_local, h]

/-! ## Claim theorems -/

/-- C1: For every pair of snapshot-index and local-index maps (the
snapshot map having the distinct keys of a Python dict), the batch
returned by pick_indices_to_restore has a summed snapshot size of at most
MAX_RESTORE_BYTES, contains only indices of the snapshot map, contains no
index whose name starts with a marker of the system-index denylist, and
every index in it is a candidate: either absent from the local map or with
snapshot size strictly greater than its local size. -/
theorem pick_indices_invariants (snap : SnapMap) (local_indices : LocalMap)
    (hnd : (snap.map Prod.fst).Nodup) :
    ((pick_indices_to_restore snap local_indices).map (snap_size snap)).sum ≤ MAX_RESTORE_BYTES
    ∧ (∀ i ∈ pick_indices_to_restore snap local_indices, i ∈ snap.map Prod.fst)
    ∧ (∀ i ∈ pick_indices_to_restore snap local_indices, is_system_index i = false)
    ∧ (∀ i ∈ pick_indices_to_restore snap local_indices,
        ∀ l, local_indices.lookup i = some l → l.size < snap_size snap i) := by
  obtain ⟨k, hk1, hk2, _⟩ :=
    greedy_pack_spec (sorted_candidates snap local_indices) 0 (Nat.zero_le _)
  have hbatch : pick_indices_to_restore snap local_indices
      = ((sorted_candidates snap local_indices).take k).map Prod.fst := hk1
  have hmem : ∀ p ∈ (sorted_candidates snap local_indices).take k,
      p ∈ snap ∧ is_system_index p.1 = false ∧ needs_restore local_indices p = true :=
    fun p hp => mem_snap_of_mem_sorted (List.Sublist.mem hp (List.take_sublist _ _))
  have hsize : ∀ p ∈ (sorted_candidates snap local_indices).take k,
      snap_size snap p.1 = p.2 := by
    intro p hp
    have := lookup_eq_of_mem hnd ((hmem p hp).1 : (p.1, p.2) ∈ snap)
    simp [snap_size, this]
  refine ⟨?_, ?_, ?_, ?_⟩
  · rw [hbatch, List.map_map]
    have : ((sorted_candidates snap local_indices).take k).map (snap_size snap ∘ Prod.fst)
        = ((sorted_candidates snap local_indices).take k).map Prod.snd :=
      List.map_congr_left (fun p hp => hsize p hp)
    rw [this]
    simpa using hk2
  · intro i hi
    rw [hbatch] at hi
    obtain ⟨p, hp, hpi⟩ := List.mem_map.mp hi
    exact hpi ▸ List.mem_map.mpr ⟨p, (hmem p hp).1, rfl⟩
  · intro i hi
    rw [hbatch] at hi
    obtain ⟨p, hp, hpi⟩ := List.mem_map.mp hi
    exact hpi ▸ (hmem p hp).2.1
  · intro i hi l hl
    rw [hbatch] at hi
    obtain ⟨p, hp, hpi⟩ := List.mem_map.mp hi
    have hnr := (hmem p hp).2.2
    rw [needs_restore] at hnr
    subst hpi
    rw [hl] at hnr
    have : p.2 > l.size := by simpa using hnr
    have hs := hsize p hp
    omega

/-- Witness for C1 at a concrete pair of maps. -/
theorem pick_indices_invariants_witness :
    (snap_example.map Prod.fst).Nodup
    ∧ (((pick_indices_to_restore snap_example local_example).map
          (snap_size snap_example)).sum ≤ MAX_RESTORE_BYTES
      ∧ (∀ i ∈ pick_indices_to_restore snap_example local_example, i ∈ snap_example.map Prod.fst)
      ∧ (∀ i ∈ pick_indices_to_restore snap_example local_example, is_system_index i = false)
      ∧ (∀ i ∈ pick_indices_to_restore snap_example local_example,
          ∀ l, local_example.lookup i = some l → l.size < snap_size snap_example i)) :=
  ⟨by decide, pick_indices_invariants snap_example local_example (by decide)⟩

/-- C2 counterexample: with candidate sizes 300, 200 and 250 GB-equivalents
and the 500 GB-equivalent ceiling, the batch is not the claimed pair of the
300 and 200 indices: the 200 index is not in the batch at all. -/
theorem pick_example_claim_cex :
    "idx200" ∉ pick_indices_to_restore
      [("idx300", 300 * 10 ^ 9), ("idx200", 200 * 10 ^ 9), ("idx250", 250 * 10 ^ 9)] []
    ∧ pick_indices_to_restore
      [("idx300", 300 * 10 ^ 9), ("idx200", 200 * 10 ^ 9), ("idx250", 250 * 10 ^ 9)] []
      ≠ ["idx300", "idx200"] := by
  decide

/-- C2 as amended: on that input the batch contains exactly the size-300
index (total 300): the candidates are sorted descending as 300, 250, 200
and the loop breaks at the 250 candidate, deferring both it and the 200
index to a future run. -/
theorem pick_example_batch :
    pick_indices_to_restore
      [("idx300", 300 * 10 ^ 9), ("idx200", 200 * 10 ^ 9), ("idx250", 250 * 10 ^ 9)] []
      = ["idx300"] := by
  decide

/-- C3: For every input, the batch is the name projection of a take of the
descending-sorted candidate list, the sizes of that take are in descending
order and sum to at most the ceiling, and the cut is either the whole list
or sits exactly at the first candidate whose size would push the running
total over the ceiling, after which nothing more is added and no error is
raised. -/
theorem pick_indices_descending_cutoff (snap : SnapMap) (local_indices : LocalMap) :
    ∃ k, pick_indices_to_restore snap local_indices
        = ((sorted_candidates snap local_indices).take k).map Prod.fst
      ∧ List.Sorted (· ≥ ·) (((sorted_candidates snap local_indices).take k).map Prod.snd)
      ∧ (((sorted_candidates snap local_indices).take k).map Prod.snd).sum ≤ MAX_RESTORE_BYTES
      ∧ (k = (sorted_candidates snap local_indices).length
         ∨ (((sorted_candidates snap local_indices).take (k + 1)).map Prod.snd).sum
             > MAX_RESTORE_BYTES) := by
  obtain ⟨k, hk1, hk2, hk3⟩ :=
    greedy_pack_spec (sorted_candidates snap local_indices) 0 (Nat.zero_le _)
  refine ⟨k, hk1, ?_, by simpa using hk2, by simpa using hk3⟩
  have hsorted : List.Sorted size_desc (sorted_candidates snap local_indices) :=
    List.sorted_insertionSort size_desc _
  have htake : List.Sorted size_desc ((sorted_candidates snap local_indices).take k) :=
    List.Pairwise.sublist (List.take_sublist _ _) hsorted
  exact List.Pairwise.map Prod.snd (fun a b h => h) htake

/-- C4 counterexample: the source slices off two characters even for the
one-character suffix b, so the bare-b string 42b parses to 4, not 42; and
the suffix match is lowercase-only, so 42KB parses to 0, not 42 times 1024. -/
theorem parse_size_claim_cex :
    parse_size ("42b".data) = 4 ∧ parse_size ("42b".data) ≠ 42
    ∧ parse_size ("42KB".data) = 0 ∧ parse_size ("42KB".data) ≠ 42 * 1024 := by
  decide

/-- C4 as amended: a decimal number immediately followed by one of the
lowercase suffixes kb, mb, gb, tb parses to that number times 1024 to the
n for n from 1 to 4, truncated to an integer (1.5gb gives 1.5 times 1024
cubed); a string ending in bare b has its last TWO characters stripped
before numeric parsing, so 42b gives 4; a bare integer string like 42
gives that integer; uppercase suffixes and absent or malformed input give
0 without an exception being raised. -/
theorem parse_size_suffix (ds : List Char) (m scale : Nat)
    (h : parse_decimal ds = some (m, scale)) :
    parse_size (ds ++ ['k', 'b']) = m * 1024 / 10 ^ scale
    ∧ parse_size (ds ++ ['m', 'b']) = m * 1024 ^ 2 / 10 ^ scale
    ∧ parse_size (ds ++ ['g', 'b']) = m * 1024 ^ 3 / 10 ^ scale
    ∧ parse_size (ds ++ ['t', 'b']) = m * 1024 ^ 4 / 10 ^ scale
    ∧ parse_size ("1.5gb".data) = 1610612736
    ∧ parse_size ("42b".data) = 4
    ∧ parse_size ("42".data) = 42
    ∧ parse_size ("".data) = 0
    ∧ parse_size ("bogus".data) = 0
    ∧ parse_size ("42KB".data) = 0 := by
  refine ⟨?_, ?_, ?_, ?_, by decide, by decide, by decide, by decide, by decide, by decide⟩ <;>
    simp [parse_size, endswith_append_pair, endswith_append_one, dropLast_two, h]

/-- Witness for C4 at the mantissa 15 with scale 1, the digits of 1.5. -/
theorem parse_size_suffix_witness :
    parse_decimal ("1.5".data) = some (15, 1)
    ∧ (parse_size ("1.5".data ++ ['k', 'b']) = 15 * 1024 / 10 ^ 1
      ∧ parse_size ("1.5".data ++ ['m', 'b']) = 15 * 1024 ^ 2 / 10 ^ 1
      ∧ parse_size ("1.5".data ++ ['g', 'b']) = 15 * 1024 ^ 3 / 10 ^ 1
      ∧ parse_size ("1.5".data ++ ['t', 'b']) = 15 * 1024 ^ 4 / 10 ^ 1
      ∧ parse_size ("1.5gb".data) = 1610612736
      ∧ parse_size ("42b".data) = 4
      ∧ parse_size ("42".data) = 42
      ∧ parse_size ("".data) = 0
      ∧ parse_size ("bogus".data) = 0
      ∧ parse_size ("42KB".data) = 0) :=
  ⟨by decide, parse_size_suffix ("1.5".data) 15 1 (by decide)⟩

/-- C5 counterexample: in an environment whose only failure is the local
index fetch raising, main does not abort: the selection is computed
against the empty local map and a restore request and an open request are
issued. -/
theorem main_local_failure_cex :
    env_c5.local_resp = none
    ∧ main env_c5 = RunResult.completed
        [("logs-1", ([Action.restoreReq "logs-1", Action.openReq "logs-1"],
          IndexOutcome.restored))]
    ∧ main env_c5 ≠ RunResult.abortedNoLocalIndices := by
  decide

/-- C5 as amended: an unreachable repository, a missing snapshot, and an
empty snapshot-side size map each abort the run immediately; but the
local-side check of main is dead code, because get_local_indices returns
an empty map, never None, when the fetch fails, so a failed local fetch
does not abort the run: main behaves exactly as if the passive cluster had
reported no indices, and selection and restores proceed. -/
theorem main_prerequisite_aborts (env : ClusterEnv) :
    (env.repo_ok = false → main env = RunResult.abortedRepoUnreachable)
    ∧ (env.repo_ok = true → get_latest_snapshot env = none →
        main env = RunResult.abortedNoSnapshot)
    ∧ (env.repo_ok = true → get_latest_snapshot env ≠ none → get_snapshot_indices env = [] →
        main env = RunResult.abortedNoSnapshotIndices)
    ∧ main env ≠ RunResult.abortedNoLocalIndices
    ∧ (env.local_resp = none → main env = main { env with local_resp := some [] }) := by
  refine ⟨?_, ?_, ?_, ?_, ?_⟩
  · intro h
    simp [main, h]
  · intro h1 h2
    simp [main, h1, h2]
  · intro h1 h2 h3
    obtain ⟨s, hs⟩ := Option.ne_none_iff_exists'.mp h2
    simp [main, h1, hs, h3]
  · rw [main]
    split
    · simp
    · split
      · simp
      · split
        · simp
        · rw [get_local_indices_eq]
          split
          · rename_i heq
            exact absurd heq (by simp)
          · dsimp only
            split
            · simp
            · simp
  · intro h
    obtain ⟨r, sr, si, lr, adc, co, sv, ra, he, pdc, oo, ga⟩ := env
    simp only at h
    subst h
    rfl

/-- C6: After an accepted restore request, the simulated health sequence
yellow, yellow, green with mismatched docs, green with matching docs makes
restore_index report success after the 4th poll, consuming exactly 4 of
the 30 allowed attempts; the green poll with the mismatched doc count does
not fail the attempt but continues polling, consuming one attempt, so the
loop restarted after it equals the loop restarted at the next attempt. -/
theorem restore_success_fourth_poll :
    restore_index true true health_seq_c6 doc_seq_c6 42 = (true, 4)
    ∧ health_poll_loop health_seq_c6 doc_seq_c6 42 2 = health_poll_loop health_seq_c6 doc_seq_c6 42 3
    ∧ 4 ≤ max_attempts := by
  decide

/-- C7: For every simulated health sequence in which no poll within the 30
attempts is green with a verified doc count, restore_index returns the
failure value after exactly 30 polls; being a total function it raises no
exception. -/
theorem restore_poll_timeout (health : Nat → HealthResp) (doc : Nat → Option Nat)
    (expected : Nat)
    (h : ∀ n, n < max_attempts →
      ¬(health n = HealthResp.ok "green" ∧ verify_restore_success (doc n) expected = true)) :
    restore_index true true health doc expected = (false, max_attempts) := by
  have hfalse : ∀ n, 0 ≤ n → n < 0 + max_attempts → poll_success health doc expected n = false :=
    fun n _ hn => (poll_success_false_iff health doc expected n).mpr (h n (by omega))
  have ht := health_poll_aux_timeout health doc expected max_attempts 0 hfalse
  show health_poll_loop health doc expected 0 = (false, max_attempts)
  rw [health_poll_loop, Nat.sub_zero, ht, Nat.zero_add]

/-- Witness for C7 on the sequence that stays yellow forever. -/
theorem restore_poll_timeout_witness :
    (∀ n, n < max_attempts →
      ¬(yellow_seq n = HealthResp.ok "green" ∧ verify_restore_success (doc_zero n) 0 = true))
    ∧ restore_index true true yellow_seq doc_zero 0 = (false, max_attempts) :=
  ⟨by decide, restore_poll_timeout yellow_seq doc_zero 0 (by decide)⟩

/-- C8: When the expected doc count is available, the selected index
exists locally and its close call fails, the per-index processing ends
with the close-failed outcome having issued only the close request and in
particular no restore request; and whenever main completes, its result
list processes every index of the batch, so no per-index failure
terminates the whole run. -/
theorem close_failure_isolated (env : ClusterEnv) (idx : String) (d : Nat)
    (hdoc : env.active_doc_count idx = some d)
    (hin : ((effective_local env).lookup idx).isSome = true)
    (hfail : env.close_ok idx = false) :
    process_index env (effective_local env) idx
      = ([Action.closeReq idx], IndexOutcome.closeFailed)
    ∧ Action.restoreReq idx ∉ (process_index env (effective_local env) idx).1
    ∧ ∀ results, main env = RunResult.completed results →
        results = (run_batch env).map (fun i => (i, process_index env (effective_local env) i)) := by
  have hproc : process_index env (effective_local env) idx
      = ([Action.closeReq idx], IndexOutcome.closeFailed) := by
    simp [process_index, hdoc, hin, hfail]
  refine ⟨hproc, ?_, ?_⟩
  · rw [hproc]
    simp
  · intro results hres
    rw [main] at hres
    split at hres
    · exact absurd hres (by simp)
    · split at hres
      · exact absurd hres (by simp)
      · split at hres
        · exact absurd hres (by simp)
        · rw [get_local_indices_eq] at hres
          split at hres
          · rename_i heq
            exact absurd heq (by simp)
          · rename_i l heq
            have hl : l = effective_local env := by
              injection heq with h
              exact h.symm
            dsimp only at hres
            split at hres
            · exact absurd hres (by simp)
            · rw [RunResult.completed.injEq] at hres
              subst hl
              exact hres.symm

/-- Witness for C8 on a concrete environment whose close call fails. -/
theorem close_failure_isolated_witness :
    env_c8.active_doc_count "logs-1" = some 7
    ∧ ((effective_local env_c8).lookup "logs-1").isSome = true
    ∧ env_c8.close_ok "logs-1" = false
    ∧ (process_index env_c8 (effective_local env_c8) "logs-1"
        = ([Action.closeReq "logs-1"], IndexOutcome.closeFailed)
      ∧ Action.restoreReq "logs-1" ∉ (process_index env_c8 (effective_local env_c8) "logs-1").1
      ∧ ∀ results, main env_c8 = RunResult.completed results →
          results = (run_batch env_c8).map
            (fun i => (i, process_index env_c8 (effective_local env_c8) i))) :=
  ⟨by decide, by decide, by decide,
    close_failure_isolated env_c8 "logs-1" 7 (by decide) (by decide) (by decide)⟩

/-- C9: Within one call of restore_index after the restore request is
accepted, every polling iteration consumes exactly one of the 30 attempts
regardless of its outcome: a request exception, a non-ok response, a
non-green status and a green status with an unverified doc count are all
non-successes, and on a non-success the loop equals itself restarted one
attempt later; the loop started below the ceiling either succeeds or ends
as the failure value at exactly 30, its poll counter never exceeds 30, and
it always terminates with a success or failure value. -/
theorem restore_poll_attempt_accounting (health : Nat → HealthResp) (doc : Nat → Option Nat)
    (expected attempt : Nat) (ha : attempt < max_attempts) :
    ((health_poll_loop health doc expected attempt).1 = true
      ∨ health_poll_loop health doc expected attempt = (false, max_attempts))
    ∧ (health_poll_loop health doc expected attempt).2 ≤ max_attempts
    ∧ ((health attempt = HealthResp.exn ∨ health attempt = HealthResp.notOk
        ∨ (∃ s, health attempt = HealthResp.ok s ∧ s ≠ "green")
        ∨ verify_restore_success (doc attempt) expected = false) →
        poll_success health doc expected attempt = false)
    ∧ (poll_success health doc expected attempt = false →
        health_poll_loop health doc expected attempt
          = health_poll_loop health doc expected (attempt + 1))
    ∧ (poll_success health doc expected attempt = true →
        health_poll_loop health doc expected attempt = (true, attempt + 1)) := by
  have hb := health_poll_aux_bound health doc expected (max_attempts - attempt) attempt
  have harith : attempt + (max_attempts - attempt) = max_attempts := by omega
  refine ⟨?_, ?_, ?_,
    fun h => health_poll_loop_continue health doc expected attempt ha h,
    fun h => health_poll_loop_success health doc expected attempt ha h⟩
  · rcases hb with ⟨h1, _, _⟩ | h
    · exact Or.inl h1
    · exact Or.inr (by rw [health_poll_loop, h, harith])
  · rcases hb with ⟨_, _, h3⟩ | h
    · show (health_poll_aux health doc expected (max_attempts - attempt) attempt).2 ≤ max_attempts
      omega
    · show (health_poll_aux health doc expected (max_attempts - attempt) attempt).2 ≤ max_attempts
      rw [h]
      simp
      omega
  · rintro (hh | hh | ⟨s, hh, hs⟩ | hv)
    · simp [poll_success, hh]
    · simp [poll_success, hh]
    · simp [poll_success, hh, hs]
    · cases hh : health attempt with
      | exn => simp [poll_success, hh]
      | notOk => simp [poll_success, hh]
      | ok status => simp [poll_success, hh, hv]

/-- Witness for C9 at attempt 0 on the always-raising health sequence. -/
theorem restore_poll_attempt_accounting_witness :
    0 < max_attempts
    ∧ (((health_poll_loop exn_seq doc_zero 0 0).1 = true
        ∨ health_poll_loop exn_seq doc_zero 0 0 = (false, max_attempts))
      ∧ (health_poll_loop exn_seq doc_zero 0 0).2 ≤ max_attempts
      ∧ ((exn_seq 0 = HealthResp.exn ∨ exn_seq 0 = HealthResp.notOk
          ∨ (∃ s, exn_seq 0 = HealthResp.ok s ∧ s ≠ "green")
          ∨ verify_restore_success (doc_zero 0) 0 = false) →
          poll_success exn_seq doc_zero 0 0 = false)
      ∧ (poll_success exn_seq doc_zero 0 0 = false →
          health_poll_loop exn_seq doc_zero 0 0 = health_poll_loop exn_seq doc_zero 0 1)
      ∧ (poll_success exn_seq doc_zero 0 0 = true →
          health_poll_loop exn_seq doc_zero 0 0 = (true, 1))) :=
  ⟨by decide, restore_poll_attempt_accounting exn_seq doc_zero 0 0 (by decide)⟩

/-- C10: During doc-count verification, a failed fetch of the live doc
count (the none sentinel) makes verify_restore_success report false, and
the driver then continues polling, consuming one attempt, exactly as it
does on a doc-count mismatch: a wrong count verifies to the same false
value, and the loop equals itself restarted one attempt later rather than
aborting the attempt. -/
theorem doc_fetch_failure_continues_polling (health : Nat → HealthResp) (doc : Nat → Option Nat)
    (expected attempt : Nat) (ha : attempt < max_attempts)
    (hg : health attempt = HealthResp.ok "green")
    (hd : doc attempt = none) :
    verify_restore_success (doc attempt) expected = false
    ∧ health_poll_loop health doc expected attempt
        = health_poll_loop health doc expected (attempt + 1)
    ∧ (∀ wrong, wrong ≠ expected →
        verify_restore_success (some wrong) expected
          = verify_restore_success (doc attempt) expected) := by
  have hv : verify_restore_success (doc attempt) expected = false := by
    rw [hd]
    rfl
  have hps : poll_success health doc expected attempt = false := by
    simp [poll_success, hg, hv]
  refine ⟨hv, health_poll_loop_continue health doc expected attempt ha hps, ?_⟩
  intro wrong hw
  simp [verify_restore_success, hd, hw]

/-- Witness for C10 at attempt 0 on the always-green sequence with a
failing doc-count fetch. -/
theorem doc_fetch_failure_continues_polling_witness :
    0 < max_attempts
    ∧ green_seq 0 = HealthResp.ok "green"
    ∧ doc_none 0 = none
    ∧ (verify_restore_success (doc_none 0) 5 = false
      ∧ health_poll_loop green_seq doc_none 5 0 = health_poll_loop green_seq doc_none 5 1
      ∧ (∀ wrong, wrong ≠ 5 →
          verify_restore_success (some wrong) 5 = verify_restore_success (doc_none 0) 5)) :=
  ⟨by decide, by decide, by decide,
    doc_fetch_failure_continues_polling green_seq doc_none 5 0 (by decide) (by decide) (by decide)⟩

end ElkUtil
